import Mathlib

/-
Verification of the rectangular-prism forward-modelling engine
(`gravmag/models/rectangular_prism.py` and
`gravmag/models/rectangular_prism_numba.py`).

All numeric quantities are modelled over the real numbers ℝ.  The two
implementation strategies — numpy broadcasting (`RectangularPrism`) and the
numba accumulation loop (`RectangularPrismNumba`) — are embedded separately,
each following its own source file, and proved equivalent.
-/

namespace Gravmag

/-- Modelled from the spec: the `constants` module is not part of the core
sources.  Gravitational constant (SI). -/
def GRAVITATIONAL_CONST : ℝ := 6.6743e-11

/-- Modelled from the spec: conversion from m/s² to mGal. -/
def SI2MGAL : ℝ := 1e5

/-- Modelled from the spec: conversion from 1/s² to Eötvös. -/
def SI2EOTVOS : ℝ := 1e9

/-- Modelled from the spec: magnetic constant CM = μ0 / (4π) ≈ 1e-7. -/
def CM : ℝ := 1e-7

/-- Modelled from the spec: conversion from Tesla to nanotesla. -/
def T2NT : ℝ := 1e9

/-- Modelled from the spec: conversion from Tesla to microtesla. -/
def T2MT : ℝ := 1e6

/-- Two-argument arctangent `atan2 y x` with range (−π, π]. -/
noncomputable def atan2 (y x : ℝ) : ℝ :=
  if 0 < x then Real.arctan (y / x)
  else if x < 0 then
    (if 0 ≤ y then Real.arctan (y / x) + Real.pi
     else Real.arctan (y / x) - Real.pi)
  else
    (if 0 < y then Real.pi / 2 else if y < 0 then -(Real.pi / 2) else 0)

/-- Modelled from the spec: `utils.safe_log` (the `utils` module is not part
of the core sources).  Returns the natural logarithm, and 0 whenever the
argument is ≤ 0 instead of −∞ or NaN. -/
noncomputable def safe_log (t : ℝ) : ℝ :=
  if t ≤ 0 then 0 else Real.log t

/-- Modelled from the spec: `utils.safe_atan2` (the `utils` module is not part
of the core sources).  Returns `atan2 numerator denominator`, and exactly 0
whenever the denominator is 0, regardless of the numerator's sign. -/
noncomputable def safe_atan2 (numerator denominator : ℝ) : ℝ :=
  if denominator = 0 then 0 else atan2 numerator denominator

/-- Observation points: three parallel coordinate arrays of length `D`
(the `coordinates` dictionary with keys x, y, z). -/
structure Coordinates (D : ℕ) where
  x : Fin D → ℝ
  y : Fin D → ℝ
  z : Fin D → ℝ

/-- Prisms: six parallel corner-coordinate arrays of length `P`
(the `prisms` dictionary with keys x1, x2, y1, y2, z1, z2). -/
structure Prisms (P : ℕ) where
  x1 : Fin P → ℝ
  x2 : Fin P → ℝ
  y1 : Fin P → ℝ
  y2 : Fin P → ℝ
  z1 : Fin P → ℝ
  z2 : Fin P → ℝ

/-- Unit scaling applied by `grav` in both source files (the code is
identical in the two files): multiply by the gravitational constant, then by
`SI2MGAL` for first derivatives or `SI2EOTVOS` for second derivatives. -/
def applyGravScale {D : ℕ} (field : String) (scale : Bool)
    (result : Fin D → ℝ) : Fin D → ℝ :=
  if scale then
    let r1 := fun l => result l * GRAVITATIONAL_CONST
    let r2 := if field ∈ (["x", "y", "z"] : List String) then
        fun l => r1 l * SI2MGAL
      else r1
    if field ∈ (["xx", "xy", "xz", "yy", "yz", "zz"] : List String) then
      fun l => r2 l * SI2EOTVOS
    else r2
  else result

/-- Unit scaling applied by `mag` in both source files (the code is identical
in the two files): multiply by the magnetic constant, then by `T2NT` for the
induction components, or by `−T2MT` for the scalar potential. -/
def applyMagScale {D : ℕ} (field : String) (scale : Bool)
    (result : Fin D → ℝ) : Fin D → ℝ :=
  if scale then
    let r1 := fun l => result l * CM
    let r2 := if field ∈ (["x", "y", "z"] : List String) then
        fun l => r1 l * T2NT
      else r1
    if field = "potential" then
      fun l => r2 l * (-T2MT)
    else r2
  else result

/-!  Embedding of `gravmag/models/rectangular_prism.py` (numpy strategy).  -/

namespace RectangularPrism

/-- `kernel_potential_grav(X, Y, Z, R)` from the numpy source. -/
noncomputable def kernel_potential_grav (X Y Z R : ℝ) : ℝ :=
  X * Y * safe_log (Z + R) + X * Z * safe_log (Y + R)
    + Y * Z * safe_log (X + R)
    - 0.5 * Y ^ 2 * safe_atan2 (Z * X) (Y * R)
    - 0.5 * X ^ 2 * safe_atan2 (Z * Y) (X * R)
    - 0.5 * Z ^ 2 * safe_atan2 (Y * X) (Z * R)

/-- `kernel_x(X, Y, Z, R)` from the numpy source. -/
noncomputable def kernel_x (X Y Z R : ℝ) : ℝ :=
  -(Y * safe_log (Z + R) + Z * safe_log (Y + R)
    - X * safe_atan2 (Y * Z) (X * R))

/-- `kernel_y(X, Y, Z, R)` from the numpy source. -/
noncomputable def kernel_y (X Y Z R : ℝ) : ℝ :=
  -(X * safe_log (Z + R) + Z * safe_log (X + R)
    - Y * safe_atan2 (X * Z) (Y * R))

/-- `kernel_z(X, Y, Z, R)` from the numpy source. -/
noncomputable def kernel_z (X Y Z R : ℝ) : ℝ :=
  -(Y * safe_log (X + R) + X * safe_log (Y + R)
    - Z * safe_atan2 (Y * X) (Z * R))

/-- `kernel_xx(X, Y, Z, R)` from the numpy source. -/
noncomputable def kernel_xx (X Y Z R : ℝ) : ℝ :=
  -safe_atan2 (Y * Z) (X * R)

/-- `kernel_xy(X, Y, Z, R)` from the numpy source. -/
noncomputable def kernel_xy (X Y Z R : ℝ) : ℝ :=
  safe_log (Z + R)

/-- `kernel_xz(X, Y, Z, R)` from the numpy source. -/
noncomputable def kernel_xz (X Y Z R : ℝ) : ℝ :=
  safe_log (Y + R)

/-- `kernel_yy(X, Y, Z, R)` from the numpy source. -/
noncomputable def kernel_yy (X Y Z R : ℝ) : ℝ :=
  -safe_atan2 (X * Z) (Y * R)

/-- `kernel_yz(X, Y, Z, R)` from the numpy source. -/
noncomputable def kernel_yz (X Y Z R : ℝ) : ℝ :=
  safe_log (X + R)

/-- `kernel_zz(X, Y, Z, R)` from the numpy source. -/
noncomputable def kernel_zz (X Y Z R : ℝ) : ℝ :=
  -safe_atan2 (Y * X) (Z * R)

/-- One (point, prism) entry of the accumulated `predicted_field` matrix in
`iterate_over_vertices`: the sum over the vertex indices i, j, k ∈ {1, 2} of
`(-1)^(i+j+k) * kernel(X, Y, Z, R)`, where the relative coordinate is
vertex minus point (`X = -coordinates.x + vertex.x`) and
`R = sqrt(X² + Y² + Z²)` is the Euclidean distance to the vertex
(`idist.sedm`, modelled from the spec as the squared Euclidean distance,
is not part of the core sources). -/
noncomputable def vertex_contributions (kernel : ℝ → ℝ → ℝ → ℝ → ℝ)
    (x1 x2 y1 y2 z1 z2 px py pz : ℝ) : ℝ :=
  ∑ i ∈ ({1, 2} : Finset ℕ), ∑ j ∈ ({1, 2} : Finset ℕ),
    ∑ k ∈ ({1, 2} : Finset ℕ),
      (-1 : ℝ) ^ (i + j + k) *
        kernel ((if i = 1 then x1 else x2) - px)
          ((if j = 1 then y1 else y2) - py)
          ((if k = 1 then z1 else z2) - pz)
          (Real.sqrt (((if i = 1 then x1 else x2) - px) ^ 2
            + ((if j = 1 then y1 else y2) - py) ^ 2
            + ((if k = 1 then z1 else z2) - pz) ^ 2))

/-- `iterate_over_vertices(coordinates, prisms, sigma, kernel)` from the numpy
source: accumulate the signed kernel matrices over the 8 vertices, multiply by
`sigma` and sum over the prism axis. -/
noncomputable def iterate_over_vertices {D P : ℕ} (coordinates : Coordinates D)
    (prisms : Prisms P) (sigma : Fin P → ℝ)
    (kernel : ℝ → ℝ → ℝ → ℝ → ℝ) : Fin D → ℝ :=
  fun l => ∑ p,
    vertex_contributions kernel (prisms.x1 p) (prisms.x2 p) (prisms.y1 p)
        (prisms.y2 p) (prisms.z1 p) (prisms.z2 p)
        (coordinates.x l) (coordinates.y l) (coordinates.z l)
      * sigma p

/-- The keys of the `kernels` dictionary in the numpy `grav`. -/
def gravFieldNames : List String :=
  ["potential", "x", "y", "z", "xx", "xy", "xz", "yy", "yz", "zz"]

/-- The `kernels` dictionary lookup of the numpy `grav`.  The default branch
is never reached by `grav`, which checks membership first. -/
noncomputable def gravKernel (field : String) : ℝ → ℝ → ℝ → ℝ → ℝ :=
  if field = "potential" then kernel_potential_grav
  else if field = "x" then kernel_x
  else if field = "y" then kernel_y
  else if field = "z" then kernel_z
  else if field = "xx" then kernel_xx
  else if field = "xy" then kernel_xy
  else if field = "xz" then kernel_xz
  else if field = "yy" then kernel_yy
  else if field = "yz" then kernel_yz
  else if field = "zz" then kernel_zz
  else fun _ _ _ _ => 0

/-- `grav(coordinates, prisms, density, field, scale)` from the numpy source:
dispatch on the field name (raising `ValueError` for an unknown name before
any computation), iterate over vertices, then apply the unit scaling. -/
noncomputable def grav {D P : ℕ} (coordinates : Coordinates D)
    (prisms : Prisms P) (density : Fin P → ℝ) (field : String)
    (scale : Bool) : Except String (Fin D → ℝ) :=
  if field ∈ gravFieldNames then
    .ok (applyGravScale field scale
      (iterate_over_vertices coordinates prisms density (gravKernel field)))
  else
    .error ("Gravitational field " ++ field ++ " not recognized")

/-- The keys of the `kernels` dictionary in the numpy `mag`. -/
def magFieldNames : List String := ["potential", "z", "y", "x"]

/-- The nested `kernels` dictionary of the numpy `mag`: for each magnetic
field name, the kernel triple used with mx, my and mz.  The default branch is
never reached by `mag`, which checks membership first. -/
noncomputable def magKernels (field : String) :
    (ℝ → ℝ → ℝ → ℝ → ℝ) × (ℝ → ℝ → ℝ → ℝ → ℝ) × (ℝ → ℝ → ℝ → ℝ → ℝ) :=
  if field = "potential" then (kernel_x, kernel_y, kernel_z)
  else if field = "z" then (kernel_xz, kernel_yz, kernel_zz)
  else if field = "y" then (kernel_xy, kernel_yy, kernel_yz)
  else if field = "x" then (kernel_xx, kernel_xy, kernel_xz)
  else (fun _ _ _ _ => 0, fun _ _ _ _ => 0, fun _ _ _ _ => 0)

/-- `mag(coordinates, prisms, mx, my, mz, field, scale)` from the numpy
source: three vertex iterations weighted by the magnetization components,
summed, then scaled. -/
noncomputable def mag {D P : ℕ} (coordinates : Coordinates D)
    (prisms : Prisms P) (mx my mz : Fin P → ℝ) (field : String)
    (scale : Bool) : Except String (Fin D → ℝ) :=
  if field ∈ magFieldNames then
    let resultx :=
      iterate_over_vertices coordinates prisms mx (magKernels field).1
    let resulty :=
      iterate_over_vertices coordinates prisms my (magKernels field).2.1
    let resultz :=
      iterate_over_vertices coordinates prisms mz (magKernels field).2.2
    .ok (applyMagScale field scale (fun l => resultx l + resulty l + resultz l))
  else
    .error ("Magnetic field " ++ field ++ " not recognized")

end RectangularPrism

/-!  Embedding of `gravmag/models/rectangular_prism_numba.py`
(direct accumulation strategy).  -/

namespace RectangularPrismNumba

/-- `kernel_inverse_r(X, Y, Z)` from the numba source (`R` is recomputed
inside the kernel; the entrywise safe functions are the scalar versions of
`safe_log`/`safe_atan2`). -/
noncomputable def kernel_inverse_r (X Y Z : ℝ) : ℝ :=
  let R := Real.sqrt (X ^ 2 + Y ^ 2 + Z ^ 2);
  Y * X * safe_log (Z + R) + X * Z * safe_log (Y + R)
    + Y * Z * safe_log (X + R)
    - 0.5 * Y ^ 2 * safe_atan2 (Z * X) (Y * R)
    - 0.5 * X ^ 2 * safe_atan2 (Z * Y) (X * R)
    - 0.5 * Z ^ 2 * safe_atan2 (Y * X) (Z * R)

/-- `kernel_dz(X, Y, Z)` from the numba source. -/
noncomputable def kernel_dz (X Y Z : ℝ) : ℝ :=
  let R := Real.sqrt (X ^ 2 + Y ^ 2 + Z ^ 2);
  -(Y * safe_log (X + R) + X * safe_log (Y + R)
    - Z * safe_atan2 (Y * X) (Z * R))

/-- `kernel_dy(X, Y, Z)` from the numba source. -/
noncomputable def kernel_dy (X Y Z : ℝ) : ℝ :=
  let R := Real.sqrt (X ^ 2 + Y ^ 2 + Z ^ 2);
  -(X * safe_log (Z + R) + Z * safe_log (X + R)
    - Y * safe_atan2 (X * Z) (Y * R))

/-- `kernel_dx(X, Y, Z)` from the numba source. -/
noncomputable def kernel_dx (X Y Z : ℝ) : ℝ :=
  let R := Real.sqrt (X ^ 2 + Y ^ 2 + Z ^ 2);
  -(Y * safe_log (Z + R) + Z * safe_log (Y + R)
    - X * safe_atan2 (Y * Z) (X * R))

/-- `kernel_dzz(X, Y, Z)` from the numba source. -/
noncomputable def kernel_dzz (X Y Z : ℝ) : ℝ :=
  let R := Real.sqrt (X ^ 2 + Y ^ 2 + Z ^ 2);
  -safe_atan2 (Y * X) (Z * R)

/-- `kernel_dyz(X, Y, Z)` from the numba source. -/
noncomputable def kernel_dyz (X Y Z : ℝ) : ℝ :=
  let R := Real.sqrt (X ^ 2 + Y ^ 2 + Z ^ 2);
  safe_log (X + R)

/-- `kernel_dxz(X, Y, Z)` from the numba source. -/
noncomputable def kernel_dxz (X Y Z : ℝ) : ℝ :=
  let R := Real.sqrt (X ^ 2 + Y ^ 2 + Z ^ 2);
  safe_log (Y + R)

/-- `kernel_dyy(X, Y, Z)` from the numba source. -/
noncomputable def kernel_dyy (X Y Z : ℝ) : ℝ :=
  let R := Real.sqrt (X ^ 2 + Y ^ 2 + Z ^ 2);
  -safe_atan2 (X * Z) (Y * R)

/-- `kernel_dxy(X, Y, Z)` from the numba source. -/
noncomputable def kernel_dxy (X Y Z : ℝ) : ℝ :=
  let R := Real.sqrt (X ^ 2 + Y ^ 2 + Z ^ 2);
  safe_log (Z + R)

/-- `kernel_dxx(X, Y, Z)` from the numba source. -/
noncomputable def kernel_dxx (X Y Z : ℝ) : ℝ :=
  let R := Real.sqrt (X ^ 2 + Y ^ 2 + Z ^ 2);
  -safe_atan2 (Y * Z) (X * R)

/-- The signed 8-corner bracket accumulated by `jit_grav`/`jit_mag` for one
(point, prism) pair, with relative coordinates prism-corner minus point
(`X1 = prisms[p, 0] - coordinates[0, l]`, …), exactly in the source's term
order. -/
def prism_point_term (field : ℝ → ℝ → ℝ → ℝ)
    (x1 x2 y1 y2 z1 z2 px py pz : ℝ) : ℝ :=
  field (x2 - px) (y2 - py) (z2 - pz)
    - field (x2 - px) (y2 - py) (z1 - pz)
    - field (x1 - px) (y2 - py) (z2 - pz)
    + field (x1 - px) (y2 - py) (z1 - pz)
    - field (x2 - px) (y1 - py) (z2 - pz)
    + field (x2 - px) (y1 - py) (z1 - pz)
    + field (x1 - px) (y1 - py) (z2 - pz)
    - field (x1 - px) (y1 - py) (z1 - pz)

/-- `jit_grav(coordinates, prisms, density, field, out)` from the numba
source: for each point, accumulate over prisms the density-weighted signed
8-corner bracket. -/
def jit_grav {D P : ℕ} (coordinates : Coordinates D) (prisms : Prisms P)
    (density : Fin P → ℝ) (field : ℝ → ℝ → ℝ → ℝ) : Fin D → ℝ :=
  fun l => ∑ p,
    density p *
      prism_point_term field (prisms.x1 p) (prisms.x2 p) (prisms.y1 p)
        (prisms.y2 p) (prisms.z1 p) (prisms.z2 p)
        (coordinates.x l) (coordinates.y l) (coordinates.z l)

/-- `jit_mag(coordinates, prisms, mx, my, mz, fieldx, fieldy, fieldz, out)`
from the numba source: for each point and prism, accumulate the three
magnetization-weighted signed 8-corner brackets. -/
def jit_mag {D P : ℕ} (coordinates : Coordinates D) (prisms : Prisms P)
    (mx my mz : Fin P → ℝ)
    (fieldx fieldy fieldz : ℝ → ℝ → ℝ → ℝ) : Fin D → ℝ :=
  fun l => ∑ p,
    (mx p *
        prism_point_term fieldx (prisms.x1 p) (prisms.x2 p) (prisms.y1 p)
          (prisms.y2 p) (prisms.z1 p) (prisms.z2 p)
          (coordinates.x l) (coordinates.y l) (coordinates.z l)
      + my p *
          prism_point_term fieldy (prisms.x1 p) (prisms.x2 p) (prisms.y1 p)
            (prisms.y2 p) (prisms.z1 p) (prisms.z2 p)
            (coordinates.x l) (coordinates.y l) (coordinates.z l)
      + mz p *
          prism_point_term fieldz (prisms.x1 p) (prisms.x2 p) (prisms.y1 p)
            (prisms.y2 p) (prisms.z1 p) (prisms.z2 p)
            (coordinates.x l) (coordinates.y l) (coordinates.z l))

/-- The keys of the `fields` dictionary in the numba `grav`. -/
def gravFieldNames : List String :=
  ["potential", "x", "y", "z", "xx", "xy", "xz", "yy", "yz", "zz"]

/-- The `fields` dictionary lookup of the numba `grav`.  The default branch
is never reached by `grav`, which checks membership first. -/
noncomputable def gravKernel (field : String) : ℝ → ℝ → ℝ → ℝ :=
  if field = "potential" then kernel_inverse_r
  else if field = "x" then kernel_dx
  else if field = "y" then kernel_dy
  else if field = "z" then kernel_dz
  else if field = "xx" then kernel_dxx
  else if field = "xy" then kernel_dxy
  else if field = "xz" then kernel_dxz
  else if field = "yy" then kernel_dyy
  else if field = "yz" then kernel_dyz
  else if field = "zz" then kernel_dzz
  else fun _ _ _ => 0

/-- `grav(coordinates, prisms, density, field, scale)` from the numba source:
dispatch on the field name (raising `ValueError` for an unknown name before
any computation), run `jit_grav`, then apply the unit scaling. -/
noncomputable def grav {D P : ℕ} (coordinates : Coordinates D)
    (prisms : Prisms P) (density : Fin P → ℝ) (field : String)
    (scale : Bool) : Except String (Fin D → ℝ) :=
  if field ∈ gravFieldNames then
    .ok (applyGravScale field scale
      (jit_grav coordinates prisms density (gravKernel field)))
  else
    .error ("Gravitational field " ++ field ++ " not recognized")

/-- The keys of the `fields` dictionary in the numba `mag`. -/
def magFieldNames : List String := ["potential", "z", "y", "x"]

/-- The nested `fields` dictionary of the numba `mag`: for each magnetic
field name, the kernel triple used with mx, my and mz.  The default branch is
never reached by `mag`, which checks membership first. -/
noncomputable def magKernels (field : String) :
    (ℝ → ℝ → ℝ → ℝ) × (ℝ → ℝ → ℝ → ℝ) × (ℝ → ℝ → ℝ → ℝ) :=
  if field = "potential" then (kernel_dx, kernel_dy, kernel_dz)
  else if field = "z" then (kernel_dxz, kernel_dyz, kernel_dzz)
  else if field = "y" then (kernel_dxy, kernel_dyy, kernel_dyz)
  else if field = "x" then (kernel_dxx, kernel_dxy, kernel_dxz)
  else (fun _ _ _ => 0, fun _ _ _ => 0, fun _ _ _ => 0)

/-- `mag(coordinates, prisms, mx, my, mz, field, scale)` from the numba
source: dispatch on the field name, run `jit_mag` with the kernel triple,
then apply the unit scaling. -/
noncomputable def mag {D P : ℕ} (coordinates : Coordinates D)
    (prisms : Prisms P) (mx my mz : Fin P → ℝ) (field : String)
    (scale : Bool) : Except String (Fin D → ℝ) :=
  if field ∈ magFieldNames then
    .ok (applyMagScale field scale
      (jit_mag coordinates prisms mx my mz (magKernels field).1
        (magKernels field).2.1 (magKernels field).2.2))
  else
    .error ("Magnetic field " ++ field ++ " not recognized")

end RectangularPrismNumba

/-!  The kernel formulas as written in the specification (§4.2), used to
check the implementations against the spec's table.  -/

namespace SpecFormula

/-- Spec §4.2: the gravitational potential kernel `K_pot`. -/
noncomputable def kernel_potential (X Y Z R : ℝ) : ℝ :=
  X * Y * safe_log (Z + R) + X * Z * safe_log (Y + R)
    + Y * Z * safe_log (X + R)
    - 0.5 * Y ^ 2 * safe_atan2 (Z * X) (Y * R)
    - 0.5 * X ^ 2 * safe_atan2 (Z * Y) (X * R)
    - 0.5 * Z ^ 2 * safe_atan2 (Y * X) (Z * R)

/-- Spec §4.2 table, row x: `−(Y·log(Z+R) + Z·log(Y+R) − X·atan2(Y·Z, X·R))`. -/
noncomputable def kernel_x (X Y Z R : ℝ) : ℝ :=
  -(Y * safe_log (Z + R) + Z * safe_log (Y + R)
    - X * safe_atan2 (Y * Z) (X * R))

/-- Spec §4.2 table, row y: `−(X·log(Z+R) + Z·log(X+R) − Y·atan2(X·Z, Y·R))`. -/
noncomputable def kernel_y (X Y Z R : ℝ) : ℝ :=
  -(X * safe_log (Z + R) + Z * safe_log (X + R)
    - Y * safe_atan2 (X * Z) (Y * R))

/-- Spec §4.2 table, row z: `−(Y·log(X+R) + X·log(Y+R) − Z·atan2(Y·X, Z·R))`. -/
noncomputable def kernel_z (X Y Z R : ℝ) : ℝ :=
  -(Y * safe_log (X + R) + X * safe_log (Y + R)
    - Z * safe_atan2 (Y * X) (Z * R))

/-- Spec §4.2 table, row xx: `−atan2(Y·Z, X·R)`. -/
noncomputable def kernel_xx (X Y Z R : ℝ) : ℝ := -safe_atan2 (Y * Z) (X * R)

/-- Spec §4.2 table, row xy: `log(Z+R)`. -/
noncomputable def kernel_xy (X Y Z R : ℝ) : ℝ := safe_log (Z + R)

/-- Spec §4.2 table, row xz: `log(Y+R)`. -/
noncomputable def kernel_xz (X Y Z R : ℝ) : ℝ := safe_log (Y + R)

/-- Spec §4.2 table, row yy: `−atan2(X·Z, Y·R)`. -/
noncomputable def kernel_yy (X Y Z R : ℝ) : ℝ := -safe_atan2 (X * Z) (Y * R)

/-- Spec §4.2 table, row yz: `log(X+R)`. -/
noncomputable def kernel_yz (X Y Z R : ℝ) : ℝ := safe_log (X + R)

/-- Spec §4.2 table, row zz: `−atan2(Y·X, Z·R)`. -/
noncomputable def kernel_zz (X Y Z R : ℝ) : ℝ := -safe_atan2 (Y * X) (Z * R)

end SpecFormula

/-- The total multiplicative factor applied by `grav` with `scale=True` for a
given field name: `GRAVITATIONAL_CONST`, together with `SI2MGAL` for the
first derivatives or `SI2EOTVOS` for the second derivatives. -/
def gravScaleFactor (field : String) : ℝ :=
  GRAVITATIONAL_CONST *
    ((if field ∈ (["x", "y", "z"] : List String) then SI2MGAL else 1) *
      (if field ∈ (["xx", "xy", "xz", "yy", "yz", "zz"] : List String) then
        SI2EOTVOS
      else 1))

/-- Spec §4.4, magnetic assembler formula over the batch strategy:
`output[point] = Σ_prism (mx·corner_sum(kx) + my·corner_sum(ky) +
mz·corner_sum(kz))` with the corner sums of `iterate_over_vertices`. -/
noncomputable def magAssemblerBatch {D P : ℕ} (c : Coordinates D)
    (pr : Prisms P) (mx my mz : Fin P → ℝ)
    (kx ky kz : ℝ → ℝ → ℝ → ℝ → ℝ) : Fin D → ℝ :=
  fun l => ∑ p,
    (mx p * RectangularPrism.vertex_contributions kx (pr.x1 p) (pr.x2 p)
        (pr.y1 p) (pr.y2 p) (pr.z1 p) (pr.z2 p) (c.x l) (c.y l) (c.z l)
      + my p * RectangularPrism.vertex_contributions ky (pr.x1 p) (pr.x2 p)
          (pr.y1 p) (pr.y2 p) (pr.z1 p) (pr.z2 p) (c.x l) (c.y l) (c.z l)
      + mz p * RectangularPrism.vertex_contributions kz (pr.x1 p) (pr.x2 p)
          (pr.y1 p) (pr.y2 p) (pr.z1 p) (pr.z2 p) (c.x l) (c.y l) (c.z l))

/-- Spec §4.4, magnetic assembler formula over the direct strategy: the same
weighted sum with the corner sums of the numba bracket. -/
def magAssemblerDirect {D P : ℕ} (c : Coordinates D)
    (pr : Prisms P) (mx my mz : Fin P → ℝ)
    (kx ky kz : ℝ → ℝ → ℝ → ℝ) : Fin D → ℝ :=
  fun l => ∑ p,
    (mx p * RectangularPrismNumba.prism_point_term kx (pr.x1 p) (pr.x2 p)
        (pr.y1 p) (pr.y2 p) (pr.z1 p) (pr.z2 p) (c.x l) (c.y l) (c.z l)
      + my p * RectangularPrismNumba.prism_point_term ky (pr.x1 p) (pr.x2 p)
          (pr.y1 p) (pr.y2 p) (pr.z1 p) (pr.z2 p) (c.x l) (c.y l) (c.z l)
      + mz p * RectangularPrismNumba.prism_point_term kz (pr.x1 p) (pr.x2 p)
          (pr.y1 p) (pr.y2 p) (pr.z1 p) (pr.z2 p) (c.x l) (c.y l) (c.z l))

/-- A single-prism structure built from six corner scalars. -/
def singlePrism (x1 x2 y1 y2 z1 z2 : ℝ) : Prisms 1 :=
  ⟨fun _ => x1, fun _ => x2, fun _ => y1, fun _ => y2, fun _ => z1,
    fun _ => z2⟩

/-- The two sub-prisms obtained by cutting a prism along z at `zm`:
prism 0 is `(x1,x2,y1,y2,z1,zm)` and prism 1 is `(x1,x2,y1,y2,zm,z2)`. -/
def splitPrismAtZ (x1 x2 y1 y2 z1 zm z2 : ℝ) : Prisms 2 :=
  ⟨fun _ => x1, fun _ => x2, fun _ => y1, fun _ => y2,
    fun p => if p = 0 then z1 else zm, fun p => if p = 0 then zm else z2⟩

/-!  Helper lemmas.  -/

/-- Expanding the triple vertex sum of the numpy strategy into the eight
explicit signed corner terms, listed in the order of the numba bracket. -/
lemma vertex_contributions_expand (kernel : ℝ → ℝ → ℝ → ℝ → ℝ)
    (x1 x2 y1 y2 z1 z2 px py pz : ℝ) :
    RectangularPrism.vertex_contributions kernel x1 x2 y1 y2 z1 z2 px py pz =
      kernel (x2 - px) (y2 - py) (z2 - pz)
          (Real.sqrt ((x2 - px) ^ 2 + (y2 - py) ^ 2 + (z2 - pz) ^ 2))
        - kernel (x2 - px) (y2 - py) (z1 - pz)
            (Real.sqrt ((x2 - px) ^ 2 + (y2 - py) ^ 2 + (z1 - pz) ^ 2))
        - kernel (x1 - px) (y2 - py) (z2 - pz)
            (Real.sqrt ((x1 - px) ^ 2 + (y2 - py) ^ 2 + (z2 - pz) ^ 2))
        + kernel (x1 - px) (y2 - py) (z1 - pz)
            (Real.sqrt ((x1 - px) ^ 2 + (y2 - py) ^ 2 + (z1 - pz) ^ 2))
        - kernel (x2 - px) (y1 - py) (z2 - pz)
            (Real.sqrt ((x2 - px) ^ 2 + (y1 - py) ^ 2 + (z2 - pz) ^ 2))
        + kernel (x2 - px) (y1 - py) (z1 - pz)
            (Real.sqrt ((x2 - px) ^ 2 + (y1 - py) ^ 2 + (z1 - pz) ^ 2))
        + kernel (x1 - px) (y1 - py) (z2 - pz)
            (Real.sqrt ((x1 - px) ^ 2 + (y1 - py) ^ 2 + (z2 - pz) ^ 2))
        - kernel (x1 - px) (y1 - py) (z1 - pz)
            (Real.sqrt ((x1 - px) ^ 2 + (y1 - py) ^ 2 + (z1 - pz) ^ 2)) := by
  unfold RectangularPrism.vertex_contributions
  simp only [Finset.sum_pair (show (1 : ℕ) ≠ 2 by norm_num)]
  norm_num
  ring

/-- The numba potential kernel agrees with the numpy potential kernel at
`R = sqrt(X² + Y² + Z²)`. -/
lemma kernel_inverse_r_eq (X Y Z : ℝ) :
    RectangularPrismNumba.kernel_inverse_r X Y Z =
      RectangularPrism.kernel_potential_grav X Y Z
        (Real.sqrt (X ^ 2 + Y ^ 2 + Z ^ 2)) := by
  unfold RectangularPrismNumba.kernel_inverse_r
    RectangularPrism.kernel_potential_grav
  ring

/-- The numba x-derivative kernel agrees with the numpy one. -/
lemma kernel_dx_eq (X Y Z : ℝ) :
    RectangularPrismNumba.kernel_dx X Y Z =
      RectangularPrism.kernel_x X Y Z (Real.sqrt (X ^ 2 + Y ^ 2 + Z ^ 2)) :=
  rfl

/-- The numba y-derivative kernel agrees with the numpy one. -/
lemma kernel_dy_eq (X Y Z : ℝ) :
    RectangularPrismNumba.kernel_dy X Y Z =
      RectangularPrism.kernel_y X Y Z (Real.sqrt (X ^ 2 + Y ^ 2 + Z ^ 2)) :=
  rfl

/-- The numba z-derivative kernel agrees with the numpy one. -/
lemma kernel_dz_eq (X Y Z : ℝ) :
    RectangularPrismNumba.kernel_dz X Y Z =
      RectangularPrism.kernel_z X Y Z (Real.sqrt (X ^ 2 + Y ^ 2 + Z ^ 2)) :=
  rfl

/-- The numba xx kernel agrees with the numpy one. -/
lemma kernel_dxx_eq (X Y Z : ℝ) :
    RectangularPrismNumba.kernel_dxx X Y Z =
      RectangularPrism.kernel_xx X Y Z (Real.sqrt (X ^ 2 + Y ^ 2 + Z ^ 2)) :=
  rfl

/-- The numba xy kernel agrees with the numpy one. -/
lemma kernel_dxy_eq (X Y Z : ℝ) :
    RectangularPrismNumba.kernel_dxy X Y Z =
      RectangularPrism.kernel_xy X Y Z (Real.sqrt (X ^ 2 + Y ^ 2 + Z ^ 2)) :=
  rfl

/-- The numba xz kernel agrees with the numpy one. -/
lemma kernel_dxz_eq (X Y Z : ℝ) :
    RectangularPrismNumba.kernel_dxz X Y Z =
      RectangularPrism.kernel_xz X Y Z (Real.sqrt (X ^ 2 + Y ^ 2 + Z ^ 2)) :=
  rfl

/-- The numba yy kernel agrees with the numpy one. -/
lemma kernel_dyy_eq (X Y Z : ℝ) :
    RectangularPrismNumba.kernel_dyy X Y Z =
      RectangularPrism.kernel_yy X Y Z (Real.sqrt (X ^ 2 + Y ^ 2 + Z ^ 2)) :=
  rfl

/-- The numba yz kernel agrees with the numpy one. -/
lemma kernel_dyz_eq (X Y Z : ℝ) :
    RectangularPrismNumba.kernel_dyz X Y Z =
      RectangularPrism.kernel_yz X Y Z (Real.sqrt (X ^ 2 + Y ^ 2 + Z ^ 2)) :=
  rfl

/-- The numba zz kernel agrees with the numpy one. -/
lemma kernel_dzz_eq (X Y Z : ℝ) :
    RectangularPrismNumba.kernel_dzz X Y Z =
      RectangularPrism.kernel_zz X Y Z (Real.sqrt (X ^ 2 + Y ^ 2 + Z ^ 2)) :=
  rfl

/-- When a three-argument kernel agrees with a four-argument kernel at the
recomputed distance, the numpy triple vertex sum equals the numba signed
8-corner bracket. -/
lemma vertex_contributions_eq_prism_point_term
    (k4 : ℝ → ℝ → ℝ → ℝ → ℝ) (k3 : ℝ → ℝ → ℝ → ℝ)
    (h : ∀ X Y Z, k3 X Y Z = k4 X Y Z (Real.sqrt (X ^ 2 + Y ^ 2 + Z ^ 2)))
    (x1 x2 y1 y2 z1 z2 px py pz : ℝ) :
    RectangularPrism.vertex_contributions k4 x1 x2 y1 y2 z1 z2 px py pz =
      RectangularPrismNumba.prism_point_term k3 x1 x2 y1 y2 z1 z2 px py pz := by
  rw [vertex_contributions_expand]
  unfold RectangularPrismNumba.prism_point_term
  simp only [h]

/-- When the kernels correspond, the numpy `iterate_over_vertices` and the
numba `jit_grav` compute the same array. -/
lemma iterate_over_vertices_eq_jit_grav {D P : ℕ} (c : Coordinates D)
    (pr : Prisms P) (sigma : Fin P → ℝ)
    (k4 : ℝ → ℝ → ℝ → ℝ → ℝ) (k3 : ℝ → ℝ → ℝ → ℝ)
    (h : ∀ X Y Z, k3 X Y Z = k4 X Y Z (Real.sqrt (X ^ 2 + Y ^ 2 + Z ^ 2))) :
    RectangularPrism.iterate_over_vertices c pr sigma k4 =
      RectangularPrismNumba.jit_grav c pr sigma k3 := by
  funext l
  unfold RectangularPrism.iterate_over_vertices RectangularPrismNumba.jit_grav
  refine Finset.sum_congr rfl fun p _ => ?_
  rw [vertex_contributions_eq_prism_point_term k4 k3 h]
  ring

set_option maxHeartbeats 1600000 in
/-- For every field-name string, the numba gravity dispatch returns the
kernel corresponding to the numpy one. -/
lemma gravKernel_correspond (field : String) (X Y Z : ℝ) :
    RectangularPrismNumba.gravKernel field X Y Z =
      RectangularPrism.gravKernel field X Y Z
        (Real.sqrt (X ^ 2 + Y ^ 2 + Z ^ 2)) := by
  unfold RectangularPrismNumba.gravKernel RectangularPrism.gravKernel
  split_ifs
  · exact kernel_inverse_r_eq X Y Z
  · exact kernel_dx_eq X Y Z
  · exact kernel_dy_eq X Y Z
  · exact kernel_dz_eq X Y Z
  · exact kernel_dxx_eq X Y Z
  · exact kernel_dxy_eq X Y Z
  · exact kernel_dxz_eq X Y Z
  · exact kernel_dyy_eq X Y Z
  · exact kernel_dyz_eq X Y Z
  · exact kernel_dzz_eq X Y Z
  · rfl

set_option maxHeartbeats 1600000 in
/-- For every field-name string, the three numba magnetic kernels correspond
to the three numpy ones. -/
lemma magKernels_correspond (field : String) (X Y Z : ℝ) :
    (RectangularPrismNumba.magKernels field).1 X Y Z =
        (RectangularPrism.magKernels field).1 X Y Z
          (Real.sqrt (X ^ 2 + Y ^ 2 + Z ^ 2)) ∧
      (RectangularPrismNumba.magKernels field).2.1 X Y Z =
        (RectangularPrism.magKernels field).2.1 X Y Z
          (Real.sqrt (X ^ 2 + Y ^ 2 + Z ^ 2)) ∧
      (RectangularPrismNumba.magKernels field).2.2 X Y Z =
        (RectangularPrism.magKernels field).2.2 X Y Z
          (Real.sqrt (X ^ 2 + Y ^ 2 + Z ^ 2)) := by
  unfold RectangularPrismNumba.magKernels RectangularPrism.magKernels
  split_ifs
  · exact ⟨kernel_dx_eq X Y Z, kernel_dy_eq X Y Z, kernel_dz_eq X Y Z⟩
  · exact ⟨kernel_dxz_eq X Y Z, kernel_dyz_eq X Y Z, kernel_dzz_eq X Y Z⟩
  · exact ⟨kernel_dxy_eq X Y Z, kernel_dyy_eq X Y Z, kernel_dyz_eq X Y Z⟩
  · exact ⟨kernel_dxx_eq X Y Z, kernel_dxy_eq X Y Z, kernel_dxz_eq X Y Z⟩
  · exact ⟨rfl, rfl, rfl⟩

/-- When the three kernel pairs correspond, the sum of the three numpy vertex
iterations equals the numba `jit_mag`. -/
lemma mag_core_eq {D P : ℕ} (c : Coordinates D) (pr : Prisms P)
    (mx my mz : Fin P → ℝ)
    (k4x k4y k4z : ℝ → ℝ → ℝ → ℝ → ℝ) (k3x k3y k3z : ℝ → ℝ → ℝ → ℝ)
    (hx : ∀ X Y Z, k3x X Y Z = k4x X Y Z (Real.sqrt (X ^ 2 + Y ^ 2 + Z ^ 2)))
    (hy : ∀ X Y Z, k3y X Y Z = k4y X Y Z (Real.sqrt (X ^ 2 + Y ^ 2 + Z ^ 2)))
    (hz : ∀ X Y Z, k3z X Y Z = k4z X Y Z (Real.sqrt (X ^ 2 + Y ^ 2 + Z ^ 2))) :
    (fun l => RectangularPrism.iterate_over_vertices c pr mx k4x l
        + RectangularPrism.iterate_over_vertices c pr my k4y l
        + RectangularPrism.iterate_over_vertices c pr mz k4z l) =
      RectangularPrismNumba.jit_mag c pr mx my mz k3x k3y k3z := by
  funext l
  unfold RectangularPrism.iterate_over_vertices RectangularPrismNumba.jit_mag
  rw [← Finset.sum_add_distrib, ← Finset.sum_add_distrib]
  refine Finset.sum_congr rfl fun p _ => ?_
  rw [vertex_contributions_eq_prism_point_term k4x k3x hx,
    vertex_contributions_eq_prism_point_term k4y k3y hy,
    vertex_contributions_eq_prism_point_term k4z k3z hz]
  ring

/-- Cutting the z-extent at `zm` splits the numba corner bracket additively:
the shared-face terms at `zm` cancel. -/
lemma prism_point_term_split_z (f : ℝ → ℝ → ℝ → ℝ)
    (x1 x2 y1 y2 z1 zm z2 px py pz : ℝ) :
    RectangularPrismNumba.prism_point_term f x1 x2 y1 y2 z1 zm px py pz
        + RectangularPrismNumba.prism_point_term f x1 x2 y1 y2 zm z2 px py pz =
      RectangularPrismNumba.prism_point_term f x1 x2 y1 y2 z1 z2 px py pz := by
  unfold RectangularPrismNumba.prism_point_term
  ring

/-- Cutting the z-extent at `zm` splits the numpy vertex sum additively. -/
lemma vertex_contributions_split_z (k : ℝ → ℝ → ℝ → ℝ → ℝ)
    (x1 x2 y1 y2 z1 zm z2 px py pz : ℝ) :
    RectangularPrism.vertex_contributions k x1 x2 y1 y2 z1 zm px py pz
        + RectangularPrism.vertex_contributions k x1 x2 y1 y2 zm z2 px py pz =
      RectangularPrism.vertex_contributions k x1 x2 y1 y2 z1 z2 px py pz := by
  rw [vertex_contributions_expand, vertex_contributions_expand,
    vertex_contributions_expand]
  ring

/-- A prism with zero x-thickness has a vanishing numba corner bracket. -/
lemma prism_point_term_degenerate_x (f : ℝ → ℝ → ℝ → ℝ)
    (x y1 y2 z1 z2 px py pz : ℝ) :
    RectangularPrismNumba.prism_point_term f x x y1 y2 z1 z2 px py pz = 0 := by
  unfold RectangularPrismNumba.prism_point_term
  ring

/-- A prism with zero y-thickness has a vanishing numba corner bracket. -/
lemma prism_point_term_degenerate_y (f : ℝ → ℝ → ℝ → ℝ)
    (x1 x2 y z1 z2 px py pz : ℝ) :
    RectangularPrismNumba.prism_point_term f x1 x2 y y z1 z2 px py pz = 0 := by
  unfold RectangularPrismNumba.prism_point_term
  ring

/-- A prism with zero z-thickness has a vanishing numba corner bracket. -/
lemma prism_point_term_degenerate_z (f : ℝ → ℝ → ℝ → ℝ)
    (x1 x2 y1 y2 z px py pz : ℝ) :
    RectangularPrismNumba.prism_point_term f x1 x2 y1 y2 z z px py pz = 0 := by
  unfold RectangularPrismNumba.prism_point_term
  ring

/-- A prism with zero x-thickness has a vanishing numpy vertex sum. -/
lemma vertex_contributions_degenerate_x (k : ℝ → ℝ → ℝ → ℝ → ℝ)
    (x y1 y2 z1 z2 px py pz : ℝ) :
    RectangularPrism.vertex_contributions k x x y1 y2 z1 z2 px py pz = 0 := by
  rw [vertex_contributions_expand]
  ring

/-- A prism with zero y-thickness has a vanishing numpy vertex sum. -/
lemma vertex_contributions_degenerate_y (k : ℝ → ℝ → ℝ → ℝ → ℝ)
    (x1 x2 y z1 z2 px py pz : ℝ) :
    RectangularPrism.vertex_contributions k x1 x2 y y z1 z2 px py pz = 0 := by
  rw [vertex_contributions_expand]
  ring

/-- A prism with zero z-thickness has a vanishing numpy vertex sum. -/
lemma vertex_contributions_degenerate_z (k : ℝ → ℝ → ℝ → ℝ → ℝ)
    (x1 x2 y1 y2 z px py pz : ℝ) :
    RectangularPrism.vertex_contributions k x1 x2 y1 y2 z z px py pz = 0 := by
  rw [vertex_contributions_expand]
  ring

/-- With `scale = True`, the gravity scaling multiplies every entry by the
per-field factor `gravScaleFactor`. -/
lemma applyGravScale_true {D : ℕ} (field : String) (r : Fin D → ℝ) :
    applyGravScale field true r = fun l => r l * gravScaleFactor field := by
  unfold applyGravScale gravScaleFactor
  rw [if_pos rfl]
  split_ifs <;> funext l <;> ring

/-- With `scale = False`, the gravity scaling is the identity. -/
lemma applyGravScale_false {D : ℕ} (field : String) (r : Fin D → ℝ) :
    applyGravScale field false r = r :=
  rfl

/-- The per-field gravity scale factor is strictly positive. -/
lemma gravScaleFactor_pos (field : String) : 0 < gravScaleFactor field := by
  unfold gravScaleFactor
  split_ifs <;>
    norm_num [GRAVITATIONAL_CONST, SI2MGAL, SI2EOTVOS]

/-- With `scale = False`, the magnetic scaling is the identity. -/
lemma applyMagScale_false {D : ℕ} (field : String) (r : Fin D → ℝ) :
    applyMagScale field false r = r :=
  rfl

/-- For the magnetic scalar potential, the `scale = True` scaling multiplies
by `CM` and then by `−T2MT`. -/
lemma applyMagScale_potential {D : ℕ} (r : Fin D → ℝ) :
    applyMagScale "potential" true r = fun l => r l * (-(CM * T2MT)) := by
  have h0 : applyMagScale "potential" true r =
      fun l => (r l * CM) * (-T2MT) := rfl
  rw [h0]
  funext l
  ring

/-- For the x induction component, the `scale = True` scaling multiplies by
`CM` and then by `T2NT`. -/
lemma applyMagScale_x {D : ℕ} (r : Fin D → ℝ) :
    applyMagScale "x" true r = fun l => r l * (CM * T2NT) := by
  have h0 : applyMagScale "x" true r = fun l => (r l * CM) * T2NT := rfl
  rw [h0]
  funext l
  ring

/-- For the y induction component, the `scale = True` scaling multiplies by
`CM` and then by `T2NT`. -/
lemma applyMagScale_y {D : ℕ} (r : Fin D → ℝ) :
    applyMagScale "y" true r = fun l => r l * (CM * T2NT) := by
  have h0 : applyMagScale "y" true r = fun l => (r l * CM) * T2NT := rfl
  rw [h0]
  funext l
  ring

/-- For the z induction component, the `scale = True` scaling multiplies by
`CM` and then by `T2NT`. -/
lemma applyMagScale_z {D : ℕ} (r : Fin D → ℝ) :
    applyMagScale "z" true r = fun l => r l * (CM * T2NT) := by
  have h0 : applyMagScale "z" true r = fun l => (r l * CM) * T2NT := rfl
  rw [h0]
  funext l
  ring

/-- Unscaled numpy `mag` computes the spec §4.4 assembler formula with the
dispatched kernel triple. -/
lemma np_mag_unscaled {D P : ℕ} (c : Coordinates D) (pr : Prisms P)
    (mx my mz : Fin P → ℝ) (field : String)
    (h : field ∈ RectangularPrism.magFieldNames) :
    RectangularPrism.mag c pr mx my mz field false =
      .ok (magAssemblerBatch c pr mx my mz
        (RectangularPrism.magKernels field).1
        (RectangularPrism.magKernels field).2.1
        (RectangularPrism.magKernels field).2.2) := by
  unfold RectangularPrism.mag
  rw [if_pos h]
  refine congrArg Except.ok ?_
  rw [applyMagScale_false]
  funext l
  unfold magAssemblerBatch RectangularPrism.iterate_over_vertices
  rw [← Finset.sum_add_distrib, ← Finset.sum_add_distrib]
  exact Finset.sum_congr rfl fun p _ => by ring

/-- Unscaled numba `mag` computes the spec §4.4 assembler formula with the
dispatched kernel triple. -/
lemma nb_mag_unscaled {D P : ℕ} (c : Coordinates D) (pr : Prisms P)
    (mx my mz : Fin P → ℝ) (field : String)
    (h : field ∈ RectangularPrismNumba.magFieldNames) :
    RectangularPrismNumba.mag c pr mx my mz field false =
      .ok (magAssemblerDirect c pr mx my mz
        (RectangularPrismNumba.magKernels field).1
        (RectangularPrismNumba.magKernels field).2.1
        (RectangularPrismNumba.magKernels field).2.2) := by
  unfold RectangularPrismNumba.mag
  rw [if_pos h]
  rfl

/-- The numpy vertex iteration over the z-split prism pair equals the one
over the undivided prism. -/
lemma iterate_split_z {D : ℕ} (c : Coordinates D) (ρ : ℝ)
    (k : ℝ → ℝ → ℝ → ℝ → ℝ) (x1 x2 y1 y2 z1 zm z2 : ℝ) :
    RectangularPrism.iterate_over_vertices c
        (splitPrismAtZ x1 x2 y1 y2 z1 zm z2) (fun _ => ρ) k =
      RectangularPrism.iterate_over_vertices c
        (singlePrism x1 x2 y1 y2 z1 z2) (fun _ => ρ) k := by
  funext l
  unfold RectangularPrism.iterate_over_vertices
  rw [Fin.sum_univ_two, Fin.sum_univ_one]
  show RectangularPrism.vertex_contributions k x1 x2 y1 y2 z1 zm
        (c.x l) (c.y l) (c.z l) * ρ
      + RectangularPrism.vertex_contributions k x1 x2 y1 y2 zm z2
          (c.x l) (c.y l) (c.z l) * ρ
      = RectangularPrism.vertex_contributions k x1 x2 y1 y2 z1 z2
          (c.x l) (c.y l) (c.z l) * ρ
  rw [← add_mul, vertex_contributions_split_z]

/-- The numba accumulation over the z-split prism pair equals the one over
the undivided prism. -/
lemma jit_grav_split_z {D : ℕ} (c : Coordinates D) (ρ : ℝ)
    (f : ℝ → ℝ → ℝ → ℝ) (x1 x2 y1 y2 z1 zm z2 : ℝ) :
    RectangularPrismNumba.jit_grav c (splitPrismAtZ x1 x2 y1 y2 z1 zm z2)
        (fun _ => ρ) f =
      RectangularPrismNumba.jit_grav c (singlePrism x1 x2 y1 y2 z1 z2)
        (fun _ => ρ) f := by
  funext l
  unfold RectangularPrismNumba.jit_grav
  rw [Fin.sum_univ_two, Fin.sum_univ_one]
  show ρ * RectangularPrismNumba.prism_point_term f x1 x2 y1 y2 z1 zm
        (c.x l) (c.y l) (c.z l)
      + ρ * RectangularPrismNumba.prism_point_term f x1 x2 y1 y2 zm z2
          (c.x l) (c.y l) (c.z l)
      = ρ * RectangularPrismNumba.prism_point_term f x1 x2 y1 y2 z1 z2
          (c.x l) (c.y l) (c.z l)
  rw [← mul_add, prism_point_term_split_z]

/-- `Except.map` on a success value. -/
lemma except_map_ok {ε α β : Type} (f : α → β) (v : α) :
    Except.map f (.ok v : Except ε α) = .ok (f v) :=
  rfl

/-- `Except.map` on an error value. -/
lemma except_map_error {ε α β : Type} (f : α → β) (e : ε) :
    Except.map f (.error e : Except ε α) = .error e :=
  rfl

/-- Scaling the all-zero output gives the all-zero output. -/
lemma applyGravScale_zero {D : ℕ} (field : String) (s : Bool) :
    applyGravScale field s (fun _ : Fin D => (0 : ℝ)) = fun _ => 0 := by
  unfold applyGravScale
  split_ifs <;> funext l <;> ring

/-!  Claim theorems.  -/

/-- Claim C1: for every input (coordinates, prisms, source properties) and
every field name, the numpy batch strategy (`rectangular_prism.grav/mag` via
`iterate_over_vertices`) and the numba direct-accumulation strategy
(`rectangular_prism_numba.grav/mag` via `jit_grav`/`jit_mag`) produce the
same length-D output (exactly, in real arithmetic): the two strategies are
interchangeable. -/
theorem claim_C1_strategy_equivalence :
    ∀ (D P : ℕ) (c : Coordinates D) (pr : Prisms P)
      (density mx my mz : Fin P → ℝ) (field : String) (scale : Bool),
      RectangularPrism.grav c pr density field scale
          = RectangularPrismNumba.grav c pr density field scale
        ∧ RectangularPrism.mag c pr mx my mz field scale
          = RectangularPrismNumba.mag c pr mx my mz field scale := by
  intro D P c pr density mx my mz field scale
  constructor
  · unfold RectangularPrism.grav RectangularPrismNumba.grav
    by_cases h : field ∈ RectangularPrism.gravFieldNames
    · rw [if_pos h,
        if_pos (show field ∈ RectangularPrismNumba.gravFieldNames from h)]
      exact congrArg (fun r => Except.ok (applyGravScale field scale r))
        (iterate_over_vertices_eq_jit_grav c pr density _ _
          (gravKernel_correspond field))
    · rw [if_neg h,
        if_neg (show field ∉ RectangularPrismNumba.gravFieldNames from h)]
  · unfold RectangularPrism.mag RectangularPrismNumba.mag
    by_cases h : field ∈ RectangularPrism.magFieldNames
    · rw [if_pos h,
        if_pos (show field ∈ RectangularPrismNumba.magFieldNames from h)]
      exact congrArg (fun r => Except.ok (applyMagScale field scale r))
        (mag_core_eq c pr mx my mz _ _ _ _ _ _
          (fun X Y Z => (magKernels_correspond field X Y Z).1)
          (fun X Y Z => (magKernels_correspond field X Y Z).2.1)
          (fun X Y Z => (magKernels_correspond field X Y Z).2.2))
    · rw [if_neg h,
        if_neg (show field ∉ RectangularPrismNumba.magFieldNames from h)]

/-- Claim C2: the per-prism per-point result is the sum over the 8 corner
index triples (i,j,k) ∈ {1,2}³ of (−1)^(i+j+k) times the kernel at relative
coordinates corner minus point, with R = sqrt(X²+Y²+Z²); the hard-coded sign
of each corner in the numba bracket follows the parity of i+j+k exactly, and
the numpy vertex iteration is literally that parity sum. -/
theorem claim_C2_corner_sum_parity :
    ∀ (f : ℝ → ℝ → ℝ → ℝ) (k4 : ℝ → ℝ → ℝ → ℝ → ℝ)
      (x1 x2 y1 y2 z1 z2 px py pz : ℝ),
      RectangularPrismNumba.prism_point_term f x1 x2 y1 y2 z1 z2 px py pz =
          (∑ i ∈ ({1, 2} : Finset ℕ), ∑ j ∈ ({1, 2} : Finset ℕ),
            ∑ k ∈ ({1, 2} : Finset ℕ),
              (-1 : ℝ) ^ (i + j + k) *
                f ((if i = 1 then x1 else x2) - px)
                  ((if j = 1 then y1 else y2) - py)
                  ((if k = 1 then z1 else z2) - pz))
        ∧ RectangularPrism.vertex_contributions k4 x1 x2 y1 y2 z1 z2 px py pz =
            (∑ i ∈ ({1, 2} : Finset ℕ), ∑ j ∈ ({1, 2} : Finset ℕ),
              ∑ k ∈ ({1, 2} : Finset ℕ),
                (-1 : ℝ) ^ (i + j + k) *
                  k4 ((if i = 1 then x1 else x2) - px)
                    ((if j = 1 then y1 else y2) - py)
                    ((if k = 1 then z1 else z2) - pz)
                    (Real.sqrt (((if i = 1 then x1 else x2) - px) ^ 2
                      + ((if j = 1 then y1 else y2) - py) ^ 2
                      + ((if k = 1 then z1 else z2) - pz) ^ 2)))
        ∧ ((-1 : ℝ) ^ (1 + 1 + 1) = -1 ∧ (-1 : ℝ) ^ (2 + 1 + 1) = 1
            ∧ (-1 : ℝ) ^ (1 + 2 + 1) = 1 ∧ (-1 : ℝ) ^ (1 + 1 + 2) = 1
            ∧ (-1 : ℝ) ^ (2 + 2 + 1) = -1 ∧ (-1 : ℝ) ^ (2 + 1 + 2) = -1
            ∧ (-1 : ℝ) ^ (1 + 2 + 2) = -1 ∧ (-1 : ℝ) ^ (2 + 2 + 2) = 1) := by
  intro f k4 x1 x2 y1 y2 z1 z2 px py pz
  refine ⟨?_, rfl, by norm_num⟩
  simp only [Finset.sum_pair (show (1 : ℕ) ≠ 2 by norm_num)]
  unfold RectangularPrismNumba.prism_point_term
  norm_num
  ring

/-- Claim C3: each of the ten gravitational kernels, in both implementations,
equals its formula from the spec's §4.2 table (the numba kernels at
R = sqrt(X²+Y²+Z²)). -/
theorem claim_C3_kernel_formulas :
    ∀ X Y Z R : ℝ,
      (RectangularPrism.kernel_potential_grav X Y Z R
          = SpecFormula.kernel_potential X Y Z R)
        ∧ (RectangularPrism.kernel_x X Y Z R = SpecFormula.kernel_x X Y Z R)
        ∧ (RectangularPrism.kernel_y X Y Z R = SpecFormula.kernel_y X Y Z R)
        ∧ (RectangularPrism.kernel_z X Y Z R = SpecFormula.kernel_z X Y Z R)
        ∧ (RectangularPrism.kernel_xx X Y Z R = SpecFormula.kernel_xx X Y Z R)
        ∧ (RectangularPrism.kernel_xy X Y Z R = SpecFormula.kernel_xy X Y Z R)
        ∧ (RectangularPrism.kernel_xz X Y Z R = SpecFormula.kernel_xz X Y Z R)
        ∧ (RectangularPrism.kernel_yy X Y Z R = SpecFormula.kernel_yy X Y Z R)
        ∧ (RectangularPrism.kernel_yz X Y Z R = SpecFormula.kernel_yz X Y Z R)
        ∧ (RectangularPrism.kernel_zz X Y Z R = SpecFormula.kernel_zz X Y Z R)
        ∧ (RectangularPrismNumba.kernel_inverse_r X Y Z
            = SpecFormula.kernel_potential X Y Z
                (Real.sqrt (X ^ 2 + Y ^ 2 + Z ^ 2)))
        ∧ (RectangularPrismNumba.kernel_dx X Y Z
            = SpecFormula.kernel_x X Y Z (Real.sqrt (X ^ 2 + Y ^ 2 + Z ^ 2)))
        ∧ (RectangularPrismNumba.kernel_dy X Y Z
            = SpecFormula.kernel_y X Y Z (Real.sqrt (X ^ 2 + Y ^ 2 + Z ^ 2)))
        ∧ (RectangularPrismNumba.kernel_dz X Y Z
            = SpecFormula.kernel_z X Y Z (Real.sqrt (X ^ 2 + Y ^ 2 + Z ^ 2)))
        ∧ (RectangularPrismNumba.kernel_dxx X Y Z
            = SpecFormula.kernel_xx X Y Z (Real.sqrt (X ^ 2 + Y ^ 2 + Z ^ 2)))
        ∧ (RectangularPrismNumba.kernel_dxy X Y Z
            = SpecFormula.kernel_xy X Y Z (Real.sqrt (X ^ 2 + Y ^ 2 + Z ^ 2)))
        ∧ (RectangularPrismNumba.kernel_dxz X Y Z
            = SpecFormula.kernel_xz X Y Z (Real.sqrt (X ^ 2 + Y ^ 2 + Z ^ 2)))
        ∧ (RectangularPrismNumba.kernel_dyy X Y Z
            = SpecFormula.kernel_yy X Y Z (Real.sqrt (X ^ 2 + Y ^ 2 + Z ^ 2)))
        ∧ (RectangularPrismNumba.kernel_dyz X Y Z
            = SpecFormula.kernel_yz X Y Z (Real.sqrt (X ^ 2 + Y ^ 2 + Z ^ 2)))
        ∧ (RectangularPrismNumba.kernel_dzz X Y Z
            = SpecFormula.kernel_zz X Y Z
                (Real.sqrt (X ^ 2 + Y ^ 2 + Z ^ 2))) := by
  intro X Y Z R
  refine ⟨rfl, rfl, rfl, rfl, rfl, rfl, rfl, rfl, rfl, rfl, ?_,
    rfl, rfl, rfl, rfl, rfl, rfl, rfl, rfl, rfl⟩
  unfold RectangularPrismNumba.kernel_inverse_r SpecFormula.kernel_potential
  ring

/-- Claim C4: the unscaled magnetic output at each observation point is the
sum over prisms of mx·corner_sum(kx) + my·corner_sum(ky) + mz·corner_sum(kz),
where the kernel triple is exactly the spec mapping: field potential uses
(x, y, z); field x uses (xx, xy, xz); field y uses (xy, yy, yz); field z uses
(xz, yz, zz) — in both implementations. -/
theorem claim_C4_mag_assembly :
    ∀ (D P : ℕ) (c : Coordinates D) (pr : Prisms P) (mx my mz : Fin P → ℝ),
      (RectangularPrism.mag c pr mx my mz "potential" false
          = .ok (magAssemblerBatch c pr mx my mz RectangularPrism.kernel_x
              RectangularPrism.kernel_y RectangularPrism.kernel_z))
        ∧ (RectangularPrism.mag c pr mx my mz "x" false
            = .ok (magAssemblerBatch c pr mx my mz RectangularPrism.kernel_xx
                RectangularPrism.kernel_xy RectangularPrism.kernel_xz))
        ∧ (RectangularPrism.mag c pr mx my mz "y" false
            = .ok (magAssemblerBatch c pr mx my mz RectangularPrism.kernel_xy
                RectangularPrism.kernel_yy RectangularPrism.kernel_yz))
        ∧ (RectangularPrism.mag c pr mx my mz "z" false
            = .ok (magAssemblerBatch c pr mx my mz RectangularPrism.kernel_xz
                RectangularPrism.kernel_yz RectangularPrism.kernel_zz))
        ∧ (RectangularPrismNumba.mag c pr mx my mz "potential" false
            = .ok (magAssemblerDirect c pr mx my mz
                RectangularPrismNumba.kernel_dx RectangularPrismNumba.kernel_dy
                RectangularPrismNumba.kernel_dz))
        ∧ (RectangularPrismNumba.mag c pr mx my mz "x" false
            = .ok (magAssemblerDirect c pr mx my mz
                RectangularPrismNumba.kernel_dxx
                RectangularPrismNumba.kernel_dxy
                RectangularPrismNumba.kernel_dxz))
        ∧ (RectangularPrismNumba.mag c pr mx my mz "y" false
            = .ok (magAssemblerDirect c pr mx my mz
                RectangularPrismNumba.kernel_dxy
                RectangularPrismNumba.kernel_dyy
                RectangularPrismNumba.kernel_dyz))
        ∧ (RectangularPrismNumba.mag c pr mx my mz "z" false
            = .ok (magAssemblerDirect c pr mx my mz
                RectangularPrismNumba.kernel_dxz
                RectangularPrismNumba.kernel_dyz
                RectangularPrismNumba.kernel_dzz)) := by
  intro D P c pr mx my mz
  exact ⟨np_mag_unscaled c pr mx my mz "potential" (by decide),
    np_mag_unscaled c pr mx my mz "x" (by decide),
    np_mag_unscaled c pr mx my mz "y" (by decide),
    np_mag_unscaled c pr mx my mz "z" (by decide),
    nb_mag_unscaled c pr mx my mz "potential" (by decide),
    nb_mag_unscaled c pr mx my mz "x" (by decide),
    nb_mag_unscaled c pr mx my mz "y" (by decide),
    nb_mag_unscaled c pr mx my mz "z" (by decide)⟩

/-- Claim C5: `safe_log` returns 0 whenever its argument is ≤ 0, and
`safe_atan2` returns `atan2` of its arguments except that it returns exactly
0 whenever the denominator is 0, regardless of the numerator; both are total
functions on the reals.  (The `utils` module is not under `src/`; the
functions are modelled from the spec.) -/
theorem claim_C5_safe_functions :
    ∀ t n d : ℝ,
      (t ≤ 0 → safe_log t = 0)
        ∧ (d = 0 → safe_atan2 n d = 0)
        ∧ (d ≠ 0 → safe_atan2 n d = atan2 n d) := by
  intro t n d
  exact ⟨fun h => if_pos h, fun h => if_pos h, fun h => if_neg h⟩

/-- Witness for C5 at t = −1, n = 5, d = 0 and d = 1. -/
theorem claim_C5_safe_functions_witness :
    ((-1 : ℝ) ≤ 0 ∧ safe_log (-1) = 0)
      ∧ ((0 : ℝ) = 0 ∧ safe_atan2 5 0 = 0)
      ∧ ((1 : ℝ) ≠ 0 ∧ safe_atan2 5 1 = atan2 5 1) :=
  ⟨⟨by norm_num, (claim_C5_safe_functions (-1) 5 0).1 (by norm_num)⟩,
    ⟨rfl, (claim_C5_safe_functions (-1) 5 0).2.1 rfl⟩,
    ⟨by norm_num, (claim_C5_safe_functions (-1) 5 1).2.2 (by norm_num)⟩⟩

/-- Claim C6: splitting a prism along z at any `zm` and summing the two
sub-prism contributions reproduces the contribution of the undivided prism
exactly (in real arithmetic), for every kernel in both strategies; at the
level of `grav`, a two-prism structure cut at `zm` gives the same output as
the single undivided prism. -/
theorem claim_C6_prism_split_additivity :
    ∀ (f : ℝ → ℝ → ℝ → ℝ) (k : ℝ → ℝ → ℝ → ℝ → ℝ)
      (x1 x2 y1 y2 z1 zm z2 px py pz : ℝ),
      (RectangularPrismNumba.prism_point_term f x1 x2 y1 y2 z1 zm px py pz
            + RectangularPrismNumba.prism_point_term f x1 x2 y1 y2 zm z2
                px py pz
          = RectangularPrismNumba.prism_point_term f x1 x2 y1 y2 z1 z2
              px py pz)
        ∧ (RectangularPrism.vertex_contributions k x1 x2 y1 y2 z1 zm px py pz
              + RectangularPrism.vertex_contributions k x1 x2 y1 y2 zm z2
                  px py pz
            = RectangularPrism.vertex_contributions k x1 x2 y1 y2 z1 z2
                px py pz)
        ∧ ∀ (D : ℕ) (c : Coordinates D) (ρ : ℝ) (fname : String) (s : Bool),
            RectangularPrism.grav c (splitPrismAtZ x1 x2 y1 y2 z1 zm z2)
                (fun _ => ρ) fname s
              = RectangularPrism.grav c (singlePrism x1 x2 y1 y2 z1 z2)
                  (fun _ => ρ) fname s
            ∧ RectangularPrismNumba.grav c (splitPrismAtZ x1 x2 y1 y2 z1 zm z2)
                (fun _ => ρ) fname s
              = RectangularPrismNumba.grav c (singlePrism x1 x2 y1 y2 z1 z2)
                  (fun _ => ρ) fname s := by
  intro f k x1 x2 y1 y2 z1 zm z2 px py pz
  refine ⟨prism_point_term_split_z f x1 x2 y1 y2 z1 zm z2 px py pz,
    vertex_contributions_split_z k x1 x2 y1 y2 z1 zm z2 px py pz, ?_⟩
  intro D c ρ fname s
  constructor
  · unfold RectangularPrism.grav
    by_cases h : fname ∈ RectangularPrism.gravFieldNames
    · rw [if_pos h, if_pos h]
      exact congrArg (fun r => Except.ok (applyGravScale fname s r))
        (iterate_split_z c ρ _ x1 x2 y1 y2 z1 zm z2)
    · rw [if_neg h, if_neg h]
  · unfold RectangularPrismNumba.grav
    by_cases h : fname ∈ RectangularPrismNumba.gravFieldNames
    · rw [if_pos h, if_pos h]
      exact congrArg (fun r => Except.ok (applyGravScale fname s r))
        (jit_grav_split_z c ρ _ x1 x2 y1 y2 z1 zm z2)
    · rw [if_neg h, if_neg h]

/-- Claim C7: a field name outside the supported set makes `grav`/`mag` fail
with a ValueError before any computation (the embedding returns the error
value, with no result produced), in both implementations; a supported field
name never produces that error. -/
theorem claim_C7_invalid_field :
    ∀ (D P : ℕ) (c : Coordinates D) (pr : Prisms P)
      (density mx my mz : Fin P → ℝ) (s : Bool) (field : String),
      (field ∉ RectangularPrism.gravFieldNames →
          RectangularPrism.grav c pr density field s
              = .error ("Gravitational field " ++ field ++ " not recognized")
            ∧ RectangularPrismNumba.grav c pr density field s
              = .error ("Gravitational field " ++ field ++ " not recognized"))
        ∧ (field ∈ RectangularPrism.gravFieldNames →
            (∃ r, RectangularPrism.grav c pr density field s = .ok r)
              ∧ ∃ r, RectangularPrismNumba.grav c pr density field s = .ok r)
        ∧ (field ∉ RectangularPrism.magFieldNames →
            RectangularPrism.mag c pr mx my mz field s
                = .error ("Magnetic field " ++ field ++ " not recognized")
              ∧ RectangularPrismNumba.mag c pr mx my mz field s
                = .error ("Magnetic field " ++ field ++ " not recognized"))
        ∧ (field ∈ RectangularPrism.magFieldNames →
            (∃ r, RectangularPrism.mag c pr mx my mz field s = .ok r)
              ∧ ∃ r, RectangularPrismNumba.mag c pr mx my mz field s
                = .ok r) := by
  intro D P c pr density mx my mz s field
  refine ⟨fun h => ⟨?_, ?_⟩, fun h => ⟨?_, ?_⟩, fun h => ⟨?_, ?_⟩,
    fun h => ⟨?_, ?_⟩⟩
  · unfold RectangularPrism.grav
    rw [if_neg h]
  · unfold RectangularPrismNumba.grav
    rw [if_neg (show field ∉ RectangularPrismNumba.gravFieldNames from h)]
  · exact ⟨_, by unfold RectangularPrism.grav; rw [if_pos h]⟩
  · exact ⟨_, by
      unfold RectangularPrismNumba.grav
      rw [if_pos (show field ∈ RectangularPrismNumba.gravFieldNames from h)]⟩
  · unfold RectangularPrism.mag
    rw [if_neg h]
  · unfold RectangularPrismNumba.mag
    rw [if_neg (show field ∉ RectangularPrismNumba.magFieldNames from h)]
  · exact ⟨_, by unfold RectangularPrism.mag; rw [if_pos h]⟩
  · exact ⟨_, by
      unfold RectangularPrismNumba.mag
      rw [if_pos (show field ∈ RectangularPrismNumba.magFieldNames from h)]⟩

/-- Witness for C7: the unknown names "gradient" (gravity) and "xx"
(magnetics) produce the error; the known names "potential" (gravity) and "z"
(magnetics) produce a result. -/
theorem claim_C7_invalid_field_witness :
    ("gradient" ∉ RectangularPrism.gravFieldNames
        ∧ RectangularPrism.grav
            (⟨fun _ => 0, fun _ => 0, fun _ => 0⟩ : Coordinates 1)
            (singlePrism 0 1 0 1 0 1) (fun _ => 1) "gradient" true
          = .error ("Gravitational field " ++ "gradient" ++ " not recognized"))
      ∧ ("potential" ∈ RectangularPrism.gravFieldNames
          ∧ ∃ r, RectangularPrism.grav
              (⟨fun _ => 0, fun _ => 0, fun _ => 0⟩ : Coordinates 1)
              (singlePrism 0 1 0 1 0 1) (fun _ => 1) "potential" true = .ok r)
      ∧ ("xx" ∉ RectangularPrism.magFieldNames
          ∧ RectangularPrismNumba.mag
              (⟨fun _ => 0, fun _ => 0, fun _ => 0⟩ : Coordinates 1)
              (singlePrism 0 1 0 1 0 1) (fun _ => 1) (fun _ => 1) (fun _ => 1)
              "xx" true
            = .error ("Magnetic field " ++ "xx" ++ " not recognized"))
      ∧ ("z" ∈ RectangularPrism.magFieldNames
          ∧ ∃ r, RectangularPrism.mag
              (⟨fun _ => 0, fun _ => 0, fun _ => 0⟩ : Coordinates 1)
              (singlePrism 0 1 0 1 0 1) (fun _ => 1) (fun _ => 1) (fun _ => 1)
              "z" true = .ok r) :=
  ⟨⟨by decide,
      ((claim_C7_invalid_field 1 1 ⟨fun _ => 0, fun _ => 0, fun _ => 0⟩
          (singlePrism 0 1 0 1 0 1) (fun _ => 1) (fun _ => 1) (fun _ => 1)
          (fun _ => 1) true "gradient").1 (by decide)).1⟩,
    ⟨by decide,
      ((claim_C7_invalid_field 1 1 ⟨fun _ => 0, fun _ => 0, fun _ => 0⟩
          (singlePrism 0 1 0 1 0 1) (fun _ => 1) (fun _ => 1) (fun _ => 1)
          (fun _ => 1) true "potential").2.1 (by decide)).1⟩,
    ⟨by decide,
      ((claim_C7_invalid_field 1 1 ⟨fun _ => 0, fun _ => 0, fun _ => 0⟩
          (singlePrism 0 1 0 1 0 1) (fun _ => 1) (fun _ => 1) (fun _ => 1)
          (fun _ => 1) true "xx").2.2.1 (by decide)).2⟩,
    ⟨by decide,
      ((claim_C7_invalid_field 1 1 ⟨fun _ => 0, fun _ => 0, fun _ => 0⟩
          (singlePrism 0 1 0 1 0 1) (fun _ => 1) (fun _ => 1) (fun _ => 1)
          (fun _ => 1) true "z").2.2.2 (by decide)).1⟩⟩

/-- Claim C8: dividing the `scale = True` gravity output by the fixed
per-field constants (`GRAVITATIONAL_CONST`, with `SI2MGAL` for x, y, z or
`SI2EOTVOS` for the second derivatives) reproduces the `scale = False`
output exactly, in both implementations (and an unknown field name gives the
same error on both sides). -/
theorem claim_C8_scale_roundtrip :
    ∀ (D P : ℕ) (c : Coordinates D) (pr : Prisms P) (density : Fin P → ℝ)
      (field : String),
      Except.map (fun r => fun l => r l / gravScaleFactor field)
            (RectangularPrism.grav c pr density field true)
          = RectangularPrism.grav c pr density field false
        ∧ Except.map (fun r => fun l => r l / gravScaleFactor field)
            (RectangularPrismNumba.grav c pr density field true)
          = RectangularPrismNumba.grav c pr density field false := by
  intro D P c pr density field
  constructor
  · unfold RectangularPrism.grav
    by_cases h : field ∈ RectangularPrism.gravFieldNames
    · rw [if_pos h, if_pos h, applyGravScale_true, except_map_ok]
      refine congrArg Except.ok ?_
      rw [applyGravScale_false]
      funext l
      exact mul_div_cancel_right₀ _ (ne_of_gt (gravScaleFactor_pos field))
    · rw [if_neg h, if_neg h, except_map_error]
  · unfold RectangularPrismNumba.grav
    by_cases h : field ∈ RectangularPrismNumba.gravFieldNames
    · rw [if_pos h, if_pos h, applyGravScale_true, except_map_ok]
      refine congrArg Except.ok ?_
      rw [applyGravScale_false]
      funext l
      exact mul_div_cancel_right₀ _ (ne_of_gt (gravScaleFactor_pos field))
    · rw [if_neg h, if_neg h, except_map_error]

/-- Claim C9: a degenerate prism with zero thickness along one axis has a
signed 8-corner sum that is exactly zero for every kernel, in both
strategies; consequently such a prism contributes nothing to the `grav`
output (the result is the all-zero array). -/
theorem claim_C9_degenerate_prism :
    ∀ (f : ℝ → ℝ → ℝ → ℝ) (k : ℝ → ℝ → ℝ → ℝ → ℝ)
      (x1 x2 y1 y2 z1 z2 px py pz : ℝ),
      (x1 = x2 →
          RectangularPrismNumba.prism_point_term f x1 x2 y1 y2 z1 z2 px py pz
              = 0
            ∧ RectangularPrism.vertex_contributions k x1 x2 y1 y2 z1 z2
                px py pz = 0)
        ∧ (y1 = y2 →
            RectangularPrismNumba.prism_point_term f x1 x2 y1 y2 z1 z2 px py pz
                = 0
              ∧ RectangularPrism.vertex_contributions k x1 x2 y1 y2 z1 z2
                  px py pz = 0)
        ∧ (z1 = z2 →
            RectangularPrismNumba.prism_point_term f x1 x2 y1 y2 z1 z2 px py pz
                = 0
              ∧ RectangularPrism.vertex_contributions k x1 x2 y1 y2 z1 z2
                  px py pz = 0)
        ∧ (x1 = x2 →
            ∀ (D : ℕ) (c : Coordinates D) (ρ : ℝ) (field : String) (s : Bool),
              field ∈ RectangularPrism.gravFieldNames →
                RectangularPrism.grav c (singlePrism x1 x2 y1 y2 z1 z2)
                    (fun _ => ρ) field s = .ok (fun _ => 0)
                  ∧ RectangularPrismNumba.grav c (singlePrism x1 x2 y1 y2 z1 z2)
                      (fun _ => ρ) field s = .ok (fun _ => 0)) := by
  intro f k x1 x2 y1 y2 z1 z2 px py pz
  refine ⟨fun h => ?_, fun h => ?_, fun h => ?_, fun h => ?_⟩
  · subst h
    exact ⟨prism_point_term_degenerate_x f x1 y1 y2 z1 z2 px py pz,
      vertex_contributions_degenerate_x k x1 y1 y2 z1 z2 px py pz⟩
  · subst h
    exact ⟨prism_point_term_degenerate_y f x1 x2 y1 z1 z2 px py pz,
      vertex_contributions_degenerate_y k x1 x2 y1 z1 z2 px py pz⟩
  · subst h
    exact ⟨prism_point_term_degenerate_z f x1 x2 y1 y2 z1 px py pz,
      vertex_contributions_degenerate_z k x1 x2 y1 y2 z1 px py pz⟩
  · subst h
    intro D c ρ field s hf
    constructor
    · unfold RectangularPrism.grav
      rw [if_pos hf]
      refine congrArg Except.ok ?_
      have hiter : RectangularPrism.iterate_over_vertices c
          (singlePrism x1 x1 y1 y2 z1 z2) (fun _ => ρ)
          (RectangularPrism.gravKernel field) = fun _ => 0 := by
        funext l
        unfold RectangularPrism.iterate_over_vertices
        rw [Fin.sum_univ_one]
        show RectangularPrism.vertex_contributions
            (RectangularPrism.gravKernel field) x1 x1 y1 y2 z1 z2
            (c.x l) (c.y l) (c.z l) * ρ = 0
        rw [vertex_contributions_degenerate_x]
        ring
      rw [hiter]
      exact applyGravScale_zero field s
    · unfold RectangularPrismNumba.grav
      rw [if_pos (show field ∈ RectangularPrismNumba.gravFieldNames from hf)]
      refine congrArg Except.ok ?_
      have hjit : RectangularPrismNumba.jit_grav c
          (singlePrism x1 x1 y1 y2 z1 z2) (fun _ => ρ)
          (RectangularPrismNumba.gravKernel field) = fun _ => 0 := by
        funext l
        unfold RectangularPrismNumba.jit_grav
        rw [Fin.sum_univ_one]
        show ρ * RectangularPrismNumba.prism_point_term
            (RectangularPrismNumba.gravKernel field) x1 x1 y1 y2 z1 z2
            (c.x l) (c.y l) (c.z l) = 0
        rw [prism_point_term_degenerate_x]
        ring
      rw [hjit]
      exact applyGravScale_zero field s

/-- Witness for C9: the prism (0,0,1,1,2,2) is degenerate along all three
axes; its corner sums vanish and its `grav` output is the zero array. -/
theorem claim_C9_degenerate_prism_witness :
    ((0 : ℝ) = 0 ∧ (1 : ℝ) = 1 ∧ (2 : ℝ) = 2
        ∧ "z" ∈ RectangularPrism.gravFieldNames)
      ∧ (RectangularPrismNumba.prism_point_term RectangularPrismNumba.kernel_dz
            0 0 1 1 2 2 5 6 7 = 0
          ∧ RectangularPrism.vertex_contributions RectangularPrism.kernel_z
              0 0 1 1 2 2 5 6 7 = 0)
      ∧ (RectangularPrism.grav
            (⟨fun _ => 0, fun _ => 0, fun _ => 0⟩ : Coordinates 1)
            (singlePrism 0 0 1 1 2 2) (fun _ => 5) "z" true = .ok (fun _ => 0)
          ∧ RectangularPrismNumba.grav
              (⟨fun _ => 0, fun _ => 0, fun _ => 0⟩ : Coordinates 1)
              (singlePrism 0 0 1 1 2 2) (fun _ => 5) "z" true
            = .ok (fun _ => 0)) :=
  ⟨⟨rfl, rfl, rfl, by decide⟩,
    (claim_C9_degenerate_prism RectangularPrismNumba.kernel_dz
        RectangularPrism.kernel_z 0 0 1 1 2 2 5 6 7).1 rfl,
    (claim_C9_degenerate_prism RectangularPrismNumba.kernel_dz
        RectangularPrism.kernel_z 0 0 1 1 2 2 5 6 7).2.2.2 rfl 1
      ⟨fun _ => 0, fun _ => 0, fun _ => 0⟩ 5 "z" true (by decide)⟩

/-- Claim C10: for the magnetic scalar potential, `scale = True` multiplies
the raw result by the negative constant −CM·T2MT (the sign flips), whereas
for the magnetic induction components the factor is the positive CM·T2NT and
for every gravity field the factor `gravScaleFactor` is strictly positive
(the sign is preserved) — in both implementations. -/
theorem claim_C10_scaling_sign :
    ∀ (D P : ℕ) (c : Coordinates D) (pr : Prisms P)
      (mx my mz density : Fin P → ℝ),
      (RectangularPrism.mag c pr mx my mz "potential" true
          = Except.map (fun r => fun l => r l * (-(CM * T2MT)))
              (RectangularPrism.mag c pr mx my mz "potential" false))
        ∧ (RectangularPrismNumba.mag c pr mx my mz "potential" true
            = Except.map (fun r => fun l => r l * (-(CM * T2MT)))
                (RectangularPrismNumba.mag c pr mx my mz "potential" false))
        ∧ (-(CM * T2MT) < 0)
        ∧ (RectangularPrism.mag c pr mx my mz "x" true
            = Except.map (fun r => fun l => r l * (CM * T2NT))
                (RectangularPrism.mag c pr mx my mz "x" false))
        ∧ (RectangularPrism.mag c pr mx my mz "y" true
            = Except.map (fun r => fun l => r l * (CM * T2NT))
                (RectangularPrism.mag c pr mx my mz "y" false))
        ∧ (RectangularPrism.mag c pr mx my mz "z" true
            = Except.map (fun r => fun l => r l * (CM * T2NT))
                (RectangularPrism.mag c pr mx my mz "z" false))
        ∧ (RectangularPrismNumba.mag c pr mx my mz "x" true
            = Except.map (fun r => fun l => r l * (CM * T2NT))
                (RectangularPrismNumba.mag c pr mx my mz "x" false))
        ∧ (RectangularPrismNumba.mag c pr mx my mz "y" true
            = Except.map (fun r => fun l => r l * (CM * T2NT))
                (RectangularPrismNumba.mag c pr mx my mz "y" false))
        ∧ (RectangularPrismNumba.mag c pr mx my mz "z" true
            = Except.map (fun r => fun l => r l * (CM * T2NT))
                (RectangularPrismNumba.mag c pr mx my mz "z" false))
        ∧ (0 < CM * T2NT)
        ∧ ∀ field : String,
            (RectangularPrism.grav c pr density field true
              = Except.map (fun r => fun l => r l * gravScaleFactor field)
                  (RectangularPrism.grav c pr density field false))
            ∧ (RectangularPrismNumba.grav c pr density field true
                = Except.map (fun r => fun l => r l * gravScaleFactor field)
                    (RectangularPrismNumba.grav c pr density field false))
            ∧ 0 < gravScaleFactor field := by
  intro D P c pr mx my mz density
  refine ⟨?_, ?_, by norm_num [CM, T2MT], ?_, ?_, ?_, ?_, ?_, ?_,
    by norm_num [CM, T2NT], ?_⟩
  · unfold RectangularPrism.mag
    rw [if_pos (show ("potential" : String) ∈ RectangularPrism.magFieldNames
        by decide),
      if_pos (show ("potential" : String) ∈ RectangularPrism.magFieldNames
        by decide),
      except_map_ok]
    exact congrArg Except.ok
      (by rw [applyMagScale_false, applyMagScale_potential])
  · unfold RectangularPrismNumba.mag
    rw [if_pos
        (show ("potential" : String) ∈ RectangularPrismNumba.magFieldNames
          by decide),
      if_pos
        (show ("potential" : String) ∈ RectangularPrismNumba.magFieldNames
          by decide),
      except_map_ok]
    exact congrArg Except.ok
      (by rw [applyMagScale_false, applyMagScale_potential])
  · unfold RectangularPrism.mag
    rw [if_pos (show ("x" : String) ∈ RectangularPrism.magFieldNames
        by decide),
      if_pos (show ("x" : String) ∈ RectangularPrism.magFieldNames by decide),
      except_map_ok]
    exact congrArg Except.ok (by rw [applyMagScale_false, applyMagScale_x])
  · unfold RectangularPrism.mag
    rw [if_pos (show ("y" : String) ∈ RectangularPrism.magFieldNames
        by decide),
      if_pos (show ("y" : String) ∈ RectangularPrism.magFieldNames by decide),
      except_map_ok]
    exact congrArg Except.ok (by rw [applyMagScale_false, applyMagScale_y])
  · unfold RectangularPrism.mag
    rw [if_pos (show ("z" : String) ∈ RectangularPrism.magFieldNames
        by decide),
      if_pos (show ("z" : String) ∈ RectangularPrism.magFieldNames by decide),
      except_map_ok]
    exact congrArg Except.ok (by rw [applyMagScale_false, applyMagScale_z])
  · unfold RectangularPrismNumba.mag
    rw [if_pos (show ("x" : String) ∈ RectangularPrismNumba.magFieldNames
        by decide),
      if_pos (show ("x" : String) ∈ RectangularPrismNumba.magFieldNames
        by decide),
      except_map_ok]
    exact congrArg Except.ok (by rw [applyMagScale_false, applyMagScale_x])
  · unfold RectangularPrismNumba.mag
    rw [if_pos (show ("y" : String) ∈ RectangularPrismNumba.magFieldNames
        by decide),
      if_pos (show ("y" : String) ∈ RectangularPrismNumba.magFieldNames
        by decide),
      except_map_ok]
    exact congrArg Except.ok (by rw [applyMagScale_false, applyMagScale_y])
  · unfold RectangularPrismNumba.mag
    rw [if_pos (show ("z" : String) ∈ RectangularPrismNumba.magFieldNames
        by decide),
      if_pos (show ("z" : String) ∈ RectangularPrismNumba.magFieldNames
        by decide),
      except_map_ok]
    exact congrArg Except.ok (by rw [applyMagScale_false, applyMagScale_z])
  · intro field
    refine ⟨?_, ?_, gravScaleFactor_pos field⟩
    · unfold RectangularPrism.grav
      by_cases h : field ∈ RectangularPrism.gravFieldNames
      · rw [if_pos h, if_pos h, except_map_ok]
        exact congrArg Except.ok
          (by rw [applyGravScale_false, applyGravScale_true])
      · rw [if_neg h, if_neg h, except_map_error]
    · unfold RectangularPrismNumba.grav
      by_cases h : field ∈ RectangularPrismNumba.gravFieldNames
      · rw [if_pos h, if_pos h, except_map_ok]
        exact congrArg Except.ok
          (by rw [applyGravScale_false, applyGravScale_true])
      · rw [if_neg h, if_neg h, except_map_error]

end Gravmag
